import Mathlib

/-!
Verification of the out-of-process plugin supervision subsystem of
kazpost-messenger-server (package `plugin/rpcplugin`).

The repository snapshot contains the supervisor's conformance test surface
(`plugin/rpcplugin/rpcplugintest/supervisor.go`) but not the supervisor
implementation itself, so the data model and operations below are modelled
from the specification (spec.md sections 3, 4.1, 7), faithful to its words,
and checked against the scenarios the test file fixes.
-/

namespace RpcPlugin

/-- Modelled from the spec (section 7, error taxonomy): the supervisor's
error classes. The implementation file defining these is not in the
snapshot. -/
inductive SupError
  | InvalidExecutablePath
  | ExecutableLaunchFailed
  | StartTimeout
  | ChannelBroken
  | HookInvocationError
  deriving DecidableEq, Repr

/-- Modelled from the spec (section 3): a bundle descriptor with the plugin
identity, the root directory and the executable path relative to it; paths
are sequences of segments, a `".."` segment steps to the parent. -/
structure BundleDescriptor where
  identity : String
  rootDir : List String
  executableRelPath : List String
  deriving DecidableEq, Repr

/-- Modelled from the spec (section 6, path validation contract): resolve a
relative path against a position inside the bundle root, following `".."`
segments; `none` when resolution ever steps outside the root. -/
def resolveInRoot : List String → List String → Option (List String)
  | acc, [] => some acc
  | acc, seg :: rest =>
    if seg = ".." then
      match acc with
      | [] => none
      | _ :: _ => resolveInRoot acc.dropLast rest
    else if seg = "." then resolveInRoot acc rest
    else resolveInRoot (acc ++ [seg]) rest

/-- Modelled from the spec (section 3): the host API surface injected at
handshake time. `tag` identifies the value so re-injection can be stated;
`configAt n` is the configuration the host serves to the plugin's n-th
completed handshake (the conformance test's mock serves ShouldExit = true
to the first load and false afterwards). -/
structure HostAPISurface where
  tag : Nat
  configAt : Nat → Bool

/-- Modelled from the spec: what stands at the executable path on disk.
`missing` cannot be launched; `hangs` launches but never completes
handshake; `wellFormed` completes handshake and obeys its loaded
configuration. The supervisor implementation never inspects this at
construction time. -/
inductive BackendKind
  | missing
  | hangs
  | wellFormed
  deriving DecidableEq, Repr

/-- Modelled from the spec (section 3): a live plugin process. `gen` is the
handshake generation that produced it, `injectedTag` identifies the host
API surface injected at its handshake, `shouldExit` is the configuration it
loaded there (the conformance test backend exits during its deactivation
hook iff this is true). -/
structure Process where
  gen : Nat
  injectedTag : Nat
  shouldExit : Bool
  deriving DecidableEq, Repr

/-- Modelled from the spec (section 3): supervisor lifecycle states.
`Starting` and `Restarting` are transient inside blocking calls and do not
occur between operations of this functional model. -/
inductive SupState
  | Created
  | Running
  | Crashed
  | Stopped
  deriving DecidableEq, Repr

/-- Modelled from the spec (sections 3 and 5): the Supervisor owns at most
one live process (`proc`) and retains the host API surface supplied at
`Start` for transparent re-injection on relaunch. `spawned` and `dead`
count processes ever spawned and processes confirmed exited or killed, for
orphan accounting. `generation` counts completed handshakes. -/
structure Supervisor where
  bundle : BundleDescriptor
  state : SupState
  retainedHostAPI : Option HostAPISurface
  proc : Option Process
  generation : Nat
  spawned : Nat
  dead : Nat

/-- Number of live plugin processes a supervisor owns. -/
def Supervisor.liveCount (s : Supervisor) : Nat :=
  match s.proc with
  | some _ => 1
  | none => 0

/-- Modelled from the spec (section 4.1, construction): `NewSupervisor`
resolves and validates the executable path, failing with
`InvalidExecutablePath` when it escapes the bundle root. The backend
argument models the filesystem content at the path; construction performs
no existence check, so the definition ignores it and spawns nothing. -/
def NewSupervisor (bundle : BundleDescriptor) (kind : BackendKind) :
    Except SupError Supervisor :=
  match resolveInRoot [] bundle.executableRelPath with
  | none => .error .InvalidExecutablePath
  | some _ =>
    let _ := kind
    .ok { bundle := bundle, state := .Created, retainedHostAPI := none,
          proc := none, generation := 0, spawned := 0, dead := 0 }

/-- Outcome of one spawn-plus-handshake attempt: the result, how many
processes the attempt spawned and how many it killed or saw exit. -/
structure AttemptResult where
  outcome : Except SupError Process
  spawnedHere : Nat
  killedHere : Nat

/-- Modelled from the spec (sections 4.1 and 5): the single spawn and
handshake routine shared by the public `Start` and the internal relaunch.
A missing executable fails with `ExecutableLaunchFailed` before any
process exists; a backend that never completes handshake fails with
`StartTimeout` and the spawned process is forcibly killed before the
routine returns; a well-formed backend completes handshake, receiving the
host API surface and loading its configuration for generation `gen`. -/
def spawnAndHandshake (kind : BackendKind) (api : HostAPISurface) (gen : Nat) :
    AttemptResult :=
  match kind with
  | .missing => { outcome := .error .ExecutableLaunchFailed, spawnedHere := 0, killedHere := 0 }
  | .hangs => { outcome := .error .StartTimeout, spawnedHere := 1, killedHere := 1 }
  | .wellFormed =>
    { outcome := .ok { gen := gen, injectedTag := api.tag, shouldExit := api.configAt gen },
      spawnedHere := 1, killedHere := 0 }

/-- Modelled from the spec (section 4.1): the public `Start(hostAPI)`.
Runs the shared spawn-and-handshake routine; on success transitions to
`Running`, retaining the host API surface; on failure reports the error
with no process left live. -/
def Supervisor.Start (s : Supervisor) (kind : BackendKind) (api : HostAPISurface) :
    Option SupError × Supervisor :=
  let att := spawnAndHandshake kind api s.generation
  match att.outcome with
  | .ok p =>
    (none, { s with
             state := .Running
             retainedHostAPI := some api
             proc := some p
             generation := s.generation + 1
             spawned := s.spawned + att.spawnedHere
             dead := s.dead + att.killedHere })
  | .error e =>
    (some e, { s with
               spawned := s.spawned + att.spawnedHere
               dead := s.dead + att.killedHere })

/-- Modelled from the spec (section 4.1): the internal relaunch routine.
Re-runs spawn and handshake with the retained host API surface; on success
the supervisor is `Running` with the fresh process, on failure it stays
`Crashed` so the next hook call attempts relaunch again. -/
def Supervisor.relaunch (s : Supervisor) (kind : BackendKind) : Supervisor :=
  match s.retainedHostAPI with
  | none => s
  | some api =>
    let att := spawnAndHandshake kind api s.generation
    match att.outcome with
    | .ok p =>
      { s with
        state := .Running
        proc := some p
        generation := s.generation + 1
        spawned := s.spawned + att.spawnedHere
        dead := s.dead + att.killedHere }
    | .error _ =>
      { s with
        state := .Crashed
        spawned := s.spawned + att.spawnedHere
        dead := s.dead + att.killedHere }

/-- Modelled from the spec (section 4.1, `Hooks()`): one hook method call
through the hook proxy (the conformance test polls `OnDeactivate`). In
`Running` the call is forwarded; when the process exits during the call
(its loaded configuration says to exit on deactivation) the transport
breaks, the supervisor transitions to `Crashed`, synchronously attempts
one relaunch, and this particular call returns `ChannelBroken` without
being retried against the new process. A call arriving while `Crashed`
likewise attempts one relaunch and reports failure for itself; recovery
benefits only subsequent calls. -/
def Supervisor.HooksOnDeactivate (s : Supervisor) (kind : BackendKind) :
    Option SupError × Supervisor :=
  match s.state with
  | .Running =>
    match s.proc with
    | some p =>
      if p.shouldExit then
        let crashed := { s with
                         state := SupState.Crashed
                         proc := none
                         dead := s.dead + 1 }
        (some .ChannelBroken, crashed.relaunch kind)
      else
        (none, s)
    | none => (some .ChannelBroken, { s with state := .Crashed })
  | .Crashed => (some .ChannelBroken, s.relaunch kind)
  | _ => (some .ChannelBroken, s)

/-- Modelled from the spec (section 4.1, `Stop()`): idempotent shutdown.
Terminates any live process within the bounded grace period, releases the
call channel and transitions to the terminal `Stopped` state; it never
reports an error, also when the supervisor was never started. -/
def Supervisor.Stop (s : Supervisor) : Option SupError × Supervisor :=
  match s.proc with
  | some _ =>
    (none, { s with
             state := .Stopped
             proc := none
             dead := s.dead + 1 })
  | none =>
    (none, { s with state := .Stopped })

/-- A supervisor fresh from successful construction, as `NewSupervisor`
returns it for bundle `b`. -/
def createdSup (b : BundleDescriptor) : Supervisor :=
  { bundle := b, state := .Created, retainedHostAPI := none,
    proc := none, generation := 0, spawned := 0, dead := 0 }

/-- The bundle of the conformance tests: id "foo", executable
`backend.exe` directly inside the bundle root. -/
def fooBundle : BundleDescriptor :=
  { identity := "foo", rootDir := ["tmp", "plugins", "foo"],
    executableRelPath := ["backend.exe"] }

/-- The invalid-path conformance scenario: executable
`/foo/../../backend.exe`, whose resolution escapes the bundle root. -/
def escapingBundle : BundleDescriptor :=
  { identity := "foo", rootDir := ["tmp", "plugins", "foo"],
    executableRelPath := ["foo", "..", "..", "backend.exe"] }

/-- The nonexistent-executable conformance scenario: an in-bounds path
with nothing on disk behind it. -/
def ghostBundle : BundleDescriptor :=
  { identity := "foo", rootDir := ["tmp", "plugins", "foo"],
    executableRelPath := ["thisfileshouldnotexist"] }

/-- The crash-test host API surface: serves ShouldExit = true to the first
configuration load and false to every later one. -/
def crashTestAPI : HostAPISurface :=
  { tag := 7, configAt := fun n => n == 0 }

/-- A supervisor mid-session whose live process is configured to exit on
its next deactivation call, with the crash-test host API retained. -/
def runningCrashySup : Supervisor :=
  { bundle := fooBundle, state := .Running,
    retainedHostAPI := some crashTestAPI,
    proc := some { gen := 0, injectedTag := 7, shouldExit := true },
    generation := 1, spawned := 1, dead := 0 }

/-- Process-accounting invariant: every process ever spawned is either the
single live one or confirmed dead, so the supervisor never owns an extra
live process. -/
def Supervisor.accountedFor (s : Supervisor) : Prop :=
  s.spawned = s.dead + s.liveCount

/-- State coherence: process accounting balances, and only a `Running`
supervisor owns a live process. `NewSupervisor` establishes it and every
operation preserves it along legitimate call sequences. -/
def Supervisor.coherent (s : Supervisor) : Prop :=
  s.accountedFor ∧ (s.state ≠ SupState.Running → s.proc = none)

theorem start_coherent (s : Supervisor) (kind : BackendKind)
    (api : HostAPISurface) (h : s.accountedFor) (hp : s.proc = none) :
    ((s.Start kind api).2).coherent := by
  obtain ⟨b, st, ra, pr, g, sp, d⟩ := s
  cases kind <;>
    simp_all [Supervisor.accountedFor, Supervisor.liveCount, Supervisor.Start,
      Supervisor.coherent, spawnAndHandshake]

theorem hook_coherent (s : Supervisor) (kind : BackendKind) (h : s.coherent) :
    ((s.HooksOnDeactivate kind).2).coherent := by
  obtain ⟨b, st, ra, pr, g, sp, d⟩ := s
  obtain ⟨h1, h2⟩ := h
  cases st <;> rcases pr with _ | ⟨pg, pt, px⟩ <;> cases ra <;> cases kind <;>
    try cases px
  all_goals
    simp_all [Supervisor.accountedFor, Supervisor.liveCount, Supervisor.coherent,
      Supervisor.HooksOnDeactivate, Supervisor.relaunch, spawnAndHandshake]

theorem stop_coherent (s : Supervisor) (h : s.accountedFor) :
    ((s.Stop).2).coherent := by
  obtain ⟨b, st, ra, pr, g, sp, d⟩ := s
  cases pr <;>
    simp_all [Supervisor.accountedFor, Supervisor.liveCount, Supervisor.coherent,
      Supervisor.Stop]

theorem newSupervisor_coherent (b : BundleDescriptor) (kind : BackendKind)
    (sup : Supervisor) (h : NewSupervisor b kind = .ok sup) :
    sup.coherent ∧ sup.proc = none := by
  unfold NewSupervisor at h
  cases hr : resolveInRoot [] b.executableRelPath <;> rw [hr] at h
  · exact absurd h (by simp)
  · cases h
    exact ⟨⟨rfl, fun _ => rfl⟩, rfl⟩

/-- Claim C2: for every bundle descriptor whose executable path resolves
outside the bundle root, `NewSupervisor` fails with
`InvalidExecutablePath`; the outcome is independent of what stands on disk
at the path (no filesystem existence check), and no construction ever
spawns a process (every supervisor it returns has a zero spawn count and
no live process). -/
theorem C2_invalid_executable_path (b : BundleDescriptor) (k : BackendKind)
    (h : resolveInRoot [] b.executableRelPath = none) :
    NewSupervisor b k = .error .InvalidExecutablePath ∧
    (∀ k2, NewSupervisor b k2 = NewSupervisor b k) ∧
    (∀ b2 k2 sup, NewSupervisor b2 k2 = .ok sup →
      sup.spawned = 0 ∧ sup.proc = none) := by
  refine ⟨by simp [NewSupervisor, h], fun k2 => by simp [NewSupervisor, h], ?_⟩
  intro b2 k2 sup hok
  unfold NewSupervisor at hok
  cases hr : resolveInRoot [] b2.executableRelPath <;> rw [hr] at hok
  · exact absurd hok (by simp)
  · cases hok
    exact ⟨rfl, rfl⟩

/-- Witness for claim C2 at the conformance test's escaping bundle
(`/foo/../../backend.exe`). -/
theorem C2_invalid_executable_path_witness :
    resolveInRoot [] escapingBundle.executableRelPath = none ∧
    NewSupervisor escapingBundle .wellFormed = .error .InvalidExecutablePath :=
  ⟨by decide, (C2_invalid_executable_path escapingBundle .wellFormed (by decide)).1⟩

/-- Claim C10: when path validation fails, the supervisor provider pairs
the error with no usable supervisor value: nothing a caller could obtain
and use is returned alongside `InvalidExecutablePath`. -/
theorem C10_no_supervisor_on_invalid_path (b : BundleDescriptor)
    (k : BackendKind) (h : resolveInRoot [] b.executableRelPath = none) :
    ∀ sup : Supervisor, NewSupervisor b k ≠ .ok sup := by
  intro sup
  simp [NewSupervisor, h]

/-- Witness for claim C10 at the escaping bundle. -/
theorem C10_no_supervisor_on_invalid_path_witness :
    resolveInRoot [] escapingBundle.executableRelPath = none ∧
    NewSupervisor escapingBundle .missing ≠ .ok (createdSup escapingBundle) :=
  ⟨by decide,
    C10_no_supervisor_on_invalid_path escapingBundle .missing (by decide)
      (createdSup escapingBundle)⟩

/-- Claim C5: a bundle naming a nonexistent executable on a path that
stays inside the bundle root constructs successfully (no existence check
at construction) and the subsequent `Start` fails with
`ExecutableLaunchFailed`. -/
theorem C5_nonexistent_executable (b : BundleDescriptor)
    (api : HostAPISurface) (p : List String)
    (h : resolveInRoot [] b.executableRelPath = some p) :
    NewSupervisor b .missing = .ok (createdSup b) ∧
    ((createdSup b).Start .missing api).1 = some .ExecutableLaunchFailed := by
  constructor
  · simp [NewSupervisor, h, createdSup]
  · rfl

/-- Witness for claim C5 at the conformance test's nonexistent-executable
bundle. -/
theorem C5_nonexistent_executable_witness :
    resolveInRoot [] ghostBundle.executableRelPath =
      some ["thisfileshouldnotexist"] ∧
    NewSupervisor ghostBundle .missing = .ok (createdSup ghostBundle) ∧
    ((createdSup ghostBundle).Start .missing crashTestAPI).1 =
      some .ExecutableLaunchFailed := by
  refine ⟨by decide, ?_, ?_⟩
  · exact (C5_nonexistent_executable ghostBundle crashTestAPI
      ["thisfileshouldnotexist"] (by decide)).1
  · exact (C5_nonexistent_executable ghostBundle crashTestAPI
      ["thisfileshouldnotexist"] (by decide)).2

/-- Claim C3: `Start` against a backend that never completes handshake
fails with `StartTimeout`; the attempt spawned exactly one process and
killed it before returning, so no process remains live after the failed
`Start`. -/
theorem C3_start_timeout (s : Supervisor) (api : HostAPISurface)
    (hp : s.proc = none) :
    (s.Start .hangs api).1 = some .StartTimeout ∧
    (s.Start .hangs api).2.spawned = s.spawned + 1 ∧
    (s.Start .hangs api).2.dead = s.dead + 1 ∧
    (s.Start .hangs api).2.liveCount = 0 := by
  obtain ⟨b, st, ra, pr, g, sp, d⟩ := s
  simp_all [Supervisor.Start, spawnAndHandshake, Supervisor.liveCount]

/-- Witness for claim C3 at a freshly constructed supervisor. -/
theorem C3_start_timeout_witness :
    (createdSup fooBundle).proc = none ∧
    ((createdSup fooBundle).Start .hangs crashTestAPI).1 =
      some .StartTimeout ∧
    ((createdSup fooBundle).Start .hangs crashTestAPI).2.liveCount = 0 := by
  refine ⟨rfl, ?_, ?_⟩
  · exact (C3_start_timeout (createdSup fooBundle) crashTestAPI rfl).1
  · exact (C3_start_timeout (createdSup fooBundle) crashTestAPI rfl).2.2.2

/-- Claim C7: `Start` against a well-formed backend that completes
handshake returns no error and leaves the supervisor `Running`; a
subsequent `Stop` returns no error. -/
theorem C7_start_then_stop (s : Supervisor) (api : HostAPISurface) :
    (s.Start .wellFormed api).1 = none ∧
    (s.Start .wellFormed api).2.state = .Running ∧
    (((s.Start .wellFormed api).2).Stop).1 = none :=
  ⟨rfl, rfl, rfl⟩

/-- Claim C8: `Stop` is idempotent: it never reports an error (also on a
supervisor that was never started), releases any live process and reaches
the terminal `Stopped` state, and a second `Stop` changes nothing. -/
theorem C8_stop_idempotent (s : Supervisor) :
    (s.Stop).1 = none ∧
    (s.Stop).2.state = .Stopped ∧
    (s.Stop).2.liveCount = 0 ∧
    ((s.Stop).2).Stop = (none, (s.Stop).2) := by
  obtain ⟨b, st, ra, pr, g, sp, d⟩ := s
  cases pr <;> simp [Supervisor.Stop, Supervisor.liveCount]

/-- Claim C4: a hook call that observes the broken transport reports
`ChannelBroken` to its own caller even though the synchronous relaunch
succeeds: the supervisor is `Running` again with a fresh process carrying
a fresh configuration, yet the failed call was not retried against it;
recovery benefits only subsequent calls. -/
theorem C4_crash_call_not_retried (s : Supervisor) (p : Process)
    (api : HostAPISurface) (hs : s.state = .Running) (hp : s.proc = some p)
    (hx : p.shouldExit = true) (ha : s.retainedHostAPI = some api) :
    (s.HooksOnDeactivate .wellFormed).1 = some .ChannelBroken ∧
    (s.HooksOnDeactivate .wellFormed).2.state = .Running ∧
    (s.HooksOnDeactivate .wellFormed).2.proc =
      some { gen := s.generation, injectedTag := api.tag,
             shouldExit := api.configAt s.generation } := by
  obtain ⟨b, st, ra, pr, g, sp, d⟩ := s
  simp_all [Supervisor.HooksOnDeactivate, Supervisor.relaunch, spawnAndHandshake]

/-- Witness for claim C4 at a mid-session supervisor whose process exits
on its next deactivation call. -/
theorem C4_crash_call_not_retried_witness :
    runningCrashySup.state = .Running ∧
    runningCrashySup.proc = some { gen := 0, injectedTag := 7, shouldExit := true } ∧
    (runningCrashySup.HooksOnDeactivate .wellFormed).1 = some .ChannelBroken ∧
    (runningCrashySup.HooksOnDeactivate .wellFormed).2.state = .Running := by
  refine ⟨rfl, rfl, ?_, ?_⟩
  · exact (C4_crash_call_not_retried runningCrashySup
      { gen := 0, injectedTag := 7, shouldExit := true } crashTestAPI
      rfl rfl rfl rfl).1
  · exact (C4_crash_call_not_retried runningCrashySup
      { gen := 0, injectedTag := 7, shouldExit := true } crashTestAPI
      rfl rfl rfl rfl).2.1

/-- Claim C6: the host API surface supplied at the public `Start` is
retained by the supervisor, and the internal relaunch re-injects exactly
the retained surface into the fresh process at handshake time, loading the
configuration anew at the current generation (the relaunched process has
no memory of prior state) and taking no caller-supplied argument. -/
theorem C6_hostapi_retained_and_reinjected (s : Supervisor)
    (api : HostAPISurface) (ha : s.retainedHostAPI = some api) :
    ((s.Start .wellFormed api).2).retainedHostAPI = some api ∧
    (s.relaunch .wellFormed).proc =
      some { gen := s.generation, injectedTag := api.tag,
             shouldExit := api.configAt s.generation } := by
  obtain ⟨b, st, ra, pr, g, sp, d⟩ := s
  simp_all [Supervisor.Start, Supervisor.relaunch, spawnAndHandshake]

/-- Witness for claim C6: the crash-test supervisor relaunches with the
retained crash-test host API surface and a freshly loaded second
configuration. -/
theorem C6_hostapi_retained_and_reinjected_witness :
    runningCrashySup.retainedHostAPI = some crashTestAPI ∧
    (runningCrashySup.relaunch .wellFormed).proc =
      some { gen := 1, injectedTag := 7, shouldExit := false } := by
  refine ⟨rfl, ?_⟩
  have h := (C6_hostapi_retained_and_reinjected runningCrashySup crashTestAPI rfl).2
  simpa [runningCrashySup, crashTestAPI] using h

/-- Claim C9: failed spawn-plus-handshake attempts kill every process they
spawned (timeout paths force-kill); any supervisor owns at most one live
process; and coherence — every spawned process is dead or the single live
one, and a live process exists only while `Running` — is established by
`NewSupervisor` and preserved by `Start` from a not-yet-started
supervisor, by every hook call, and by `Stop`. -/
theorem C9_no_orphan_processes (s s2 : Supervisor) (b : BundleDescriptor)
    (kind : BackendKind) (api : HostAPISurface) (g : Nat) (e : SupError)
    (sup : Supervisor) (h : s.coherent) (hp : s.proc = none)
    (hok : NewSupervisor b kind = .ok sup) :
    ((spawnAndHandshake kind api g).outcome = .error e →
      (spawnAndHandshake kind api g).spawnedHere =
        (spawnAndHandshake kind api g).killedHere) ∧
    s2.liveCount ≤ 1 ∧
    sup.coherent ∧
    ((s.Start kind api).2).coherent ∧
    ((s.HooksOnDeactivate kind).2).coherent ∧
    ((s.Stop).2).coherent := by
  refine ⟨?_, ?_, (newSupervisor_coherent b kind sup hok).1,
    start_coherent s kind api h.1 hp, hook_coherent s kind h,
    stop_coherent s h.1⟩
  · cases kind <;> simp [spawnAndHandshake]
  · cases hpr : s2.proc <;> simp [Supervisor.liveCount, hpr]

/-- Witness for claim C9: a fresh supervisor is coherent and stays so
through a timed-out `Start` attempt. -/
theorem C9_no_orphan_processes_witness :
    (createdSup fooBundle).coherent ∧
    ((createdSup fooBundle).Start .hangs crashTestAPI).2.coherent := by
  have hco : (createdSup fooBundle).coherent := ⟨rfl, fun _ => rfl⟩
  refine ⟨hco, ?_⟩
  exact (C9_no_orphan_processes (createdSup fooBundle) (createdSup fooBundle)
    fooBundle .hangs crashTestAPI 0 .StartTimeout (createdSup fooBundle)
    hco rfl rfl).2.2.2.1

/-- Claim C1: crash recovery scenario: from a validated bundle and a host
API surface whose first served configuration makes the plugin exit on its
first deactivation call while later ones do not, construction and `Start`
succeed; the first deactivation poll through the hook surface fails with
`ChannelBroken` (the process exited mid-call); the very next poll of the
same hook succeeds with no caller intervention — the process was
relaunched and the hook surface recovered within a two-poll window. -/
theorem C1_plugin_crash_recovery (b : BundleDescriptor)
    (api : HostAPISurface) (p : List String)
    (hres : resolveInRoot [] b.executableRelPath = some p)
    (h0 : api.configAt 0 = true) (h1 : api.configAt 1 = false) :
    NewSupervisor b .wellFormed = .ok (createdSup b) ∧
    ((createdSup b).Start .wellFormed api).1 = none ∧
    ((((createdSup b).Start .wellFormed api).2).HooksOnDeactivate
      .wellFormed).1 = some .ChannelBroken ∧
    ((((((createdSup b).Start .wellFormed api).2).HooksOnDeactivate
      .wellFormed).2).HooksOnDeactivate .wellFormed).1 = none := by
  refine ⟨by simp [NewSupervisor, hres, createdSup], rfl, ?_, ?_⟩ <;>
    simp [createdSup, Supervisor.Start, Supervisor.HooksOnDeactivate,
      Supervisor.relaunch, spawnAndHandshake, h0, h1]

/-- Witness for claim C1 at the conformance test's bundle and crash-test
host API surface. -/
theorem C1_plugin_crash_recovery_witness :
    resolveInRoot [] fooBundle.executableRelPath = some ["backend.exe"] ∧
    crashTestAPI.configAt 0 = true ∧
    crashTestAPI.configAt 1 = false ∧
    ((((createdSup fooBundle).Start .wellFormed crashTestAPI).2).HooksOnDeactivate
      .wellFormed).1 = some .ChannelBroken ∧
    ((((((createdSup fooBundle).Start .wellFormed crashTestAPI).2).HooksOnDeactivate
      .wellFormed).2).HooksOnDeactivate .wellFormed).1 = none := by
  refine ⟨by decide, rfl, rfl, ?_, ?_⟩
  · exact (C1_plugin_crash_recovery fooBundle crashTestAPI ["backend.exe"]
      (by decide) rfl rfl).2.2.1
  · exact (C1_plugin_crash_recovery fooBundle crashTestAPI ["backend.exe"]
      (by decide) rfl rfl).2.2.2

end RpcPlugin
